import Mathlib

/-!
Shallow embedding of `printer_power_manager_standalone.py`: the DTEK outage
schedule model (`DTEKOutageManager`), the window evaluator
(`get_next_danger_window`), and the pause/resume state machine
(`PrinterPowerManager.check_and_manage`).

Python floats are modelled by `ℚ` (the arithmetic in every claim is exact at
the decision boundaries), timestamps by rational seconds, and raw JSON slot
records by structures with `Option` fields (`dict.get` with a default becomes
`Option.getD`).  Exceptions are modelled by an `Option`-valued outcome.
-/

/-- Module-level configuration constant `WAIT_BEFORE` (minutes). -/
def WAIT_BEFORE : ℚ := 5

/-- Module-level configuration constant `WAIT_AFTER` (minutes). -/
def WAIT_AFTER : ℚ := 10

/-- A wall-clock instant as the code reads it from `datetime.now()`:
the code only ever consumes `hour` and `minute`; `second` is carried to show
it is ignored. -/
structure Time where
  hour : ℕ
  minute : ℕ
  second : ℕ
deriving DecidableEq

/-- `current_hour = now.hour + now.minute / 60` (line 140). Seconds do not
appear in the source expression. -/
def current_hour (t : Time) : ℚ := (t.hour : ℚ) + (t.minute : ℚ) / 60

/-- Python truncating conversion `int(x)` on a rational. -/
def py_int (q : ℚ) : ℤ := q.num.tdiv (q.den : ℤ)

/-- Python `x % 1` (floored remainder, result in `[0,1)`). -/
def py_mod1 (q : ℚ) : ℚ := q - ((Rat.floor q : ℤ) : ℚ)

/-- Python format spec `{n:02d}`: pad with a leading zero to width 2. -/
def pad2 (n : ℤ) : String :=
  if 0 ≤ n ∧ n < 10 then "0" ++ toString n else toString n

/-- The window label built at line 149:
`f"\x7bint(start):02d\x7d:\x7bint((start % 1) * 60):02d\x7d-..."`. -/
def window_name (s e : ℚ) : String :=
  pad2 (py_int s) ++ ":" ++ pad2 (py_int (py_mod1 s * 60)) ++ "-" ++
  pad2 (py_int e) ++ ":" ++ pad2 (py_int (py_mod1 e * 60))

/-- Python `dict.get(key, default)` on an association list. -/
def dict_getD {α : Type} (m : List (String × α)) (k : String) (d : α) : α :=
  match m.find? (fun p => p.1 == k) with
  | some p => p.2
  | none => d

/-- Python `dict.get(key)` / `key in dict` on an association list. -/
def dict_get? {α : Type} (m : List (String × α)) (k : String) : Option α :=
  (m.find? (fun p => p.1 == k)).map (fun p => p.2)

/-- A raw slot record from the DTEK feed: `{type, start, end}` with integer
minutes.  Missing keys are `none` (`slot.get(...)`). -/
structure Slot where
  type : Option String
  start : Option ℤ
  stop : Option ℤ
deriving DecidableEq

/-- One iteration step of the loop body of `_parse_slots` (lines 111-122):
the Python loop appends `(start/60, end/60)` for each slot with
`slot.get("type") == "Definite"`, reading minutes with `slot.get("start", 0)`
and `slot.get("end", 0)`. -/
def parse_slots_go (acc : List (ℚ × ℚ)) : List Slot → List (ℚ × ℚ)
  | [] => acc
  | s :: rest =>
    if s.type = some "Definite" then
      parse_slots_go (acc ++ [(((s.start.getD 0 : ℤ) : ℚ) / 60, ((s.stop.getD 0 : ℤ) : ℚ) / 60)]) rest
    else
      parse_slots_go acc rest

/-- `DTEKOutageManager._parse_slots` (lines 108-122). -/
def parse_slots (slots : List Slot) : List (ℚ × ℚ) :=
  parse_slots_go [] slots

/-- `get_current_period` (lines 124-129): `"tomorrow"` iff the hour is 23. -/
def get_current_period (t : Time) : String :=
  if t.hour = 23 then "tomorrow" else "today"

/-- The `for start, end in outages` loop of `get_next_danger_window`
(lines 145-170), with the two early returns and the fall-through.
`wb` is the `WAIT_BEFORE` configuration constant, `ch` the current
fractional hour. -/
def danger_loop (wb ch : ℚ) : List (ℚ × ℚ) → Bool × Option String × Option ℚ
  | [] => (false, none, none)
  | (s, e) :: rest =>
    let pause_point := s - wb / 60
    if ch < pause_point then
      let minutes_until_pause := (pause_point - ch) * 60
      if minutes_until_pause ≤ 1 then
        (true, some (window_name s e), some minutes_until_pause)
      else
        (false, none, none)
    else if ch < e then
      (true, some (window_name s e), some ((e - ch) * 60))
    else
      danger_loop wb ch rest

/-- `DTEKOutageManager.get_next_danger_window` (lines 131-170): select the
interval list for the current period, then scan it in order. -/
def get_next_danger_window (wb : ℚ) (outages : List (String × List (ℚ × ℚ)))
    (t : Time) : Bool × Option String × Option ℚ :=
  danger_loop wb (current_hour t) (dict_getD outages (get_current_period t) [])

/-- `data[group]["today"]` / `["tomorrow"]` value: each period is an object
whose `"slots"` key may be absent (`.get("slots", [])`). -/
structure DayData where
  slots : Option (List Slot)
deriving DecidableEq

/-- Per-group raw API payload: `{today: ..., tomorrow: ...}`, either key may
be absent (`group_data.get("today", \x7b\x7d)`). -/
structure GroupData where
  today : Option DayData
  tomorrow : Option DayData
deriving DecidableEq

/-- `group_data.get(period, \x7b\x7d).get("slots", [])`. -/
def day_slots (od : Option DayData) : List Slot :=
  match od with
  | none => []
  | some d => d.slots.getD []

/-- Mutable state of `DTEKOutageManager`: the configured group, the parsed
schedule `self.outages`, and `self.last_update` (seconds timestamp). -/
structure DTEKState where
  group : String
  outages : List (String × List (ℚ × ℚ))
  last_update : Option ℚ
deriving DecidableEq

/-- `DTEKOutageManager.fetch_outages` (lines 74-106).  `resp` is the outcome
of the `requests.get` + `response.json()` call: `none` models any raised
exception (network error, bad status, malformed body — all caught by the
`except` at line 104 before `self.outages` is reassigned), `some data` a
decoded group map.  Returns the new manager state and the boolean result. -/
def fetch_outages (st : DTEKState) (now : ℚ)
    (resp : Option (List (String × GroupData))) : DTEKState × Bool :=
  match resp with
  | none => (st, false)
  | some data =>
    match dict_get? data st.group with
    | none => (st, false)
    | some gd =>
      (⟨st.group,
        [("today", parse_slots (day_slots gd.today)),
         ("tomorrow", parse_slots (day_slots gd.tomorrow))],
        some now⟩, true)

/-- Commands `check_and_manage` can issue through `MoonrakerClient`:
`pause_print`, `set_heaters_off` (park at 40°C), `resume_print`. -/
inductive Cmd where
  | pause
  | park
  | resume
deriving DecidableEq

/-- Mutable state of `PrinterPowerManager`: `self.is_paused`,
`self.pause_start_time` (seconds timestamp or `None`),
`self.current_outage` (window label or `None`). -/
structure PMState where
  is_paused : Bool
  pause_start_time : Option ℚ
  current_outage : Option String
deriving DecidableEq

/-- `PrinterPowerManager.check_and_manage` (lines 257-297), factored over the
evaluator signal `sig` (the triple returned by `get_next_danger_window`),
the wall-clock instant `now` in seconds, and the outcomes of the pause and
resume commands.  Returns `none` when the code would raise: the `PAUSED`
branch subtracts `self.pause_start_time` from `datetime.now()`, which is a
`TypeError` if the timestamp is `None`.  Otherwise returns the new state and
the list of commands issued, in order. -/
def check_and_manage_with (wa : ℚ) (sig : Bool × Option String × Option ℚ)
    (now : ℚ) (pause_ok resume_ok : Bool) (st : PMState) :
    Option (PMState × List Cmd) :=
  if sig.1 && !st.is_paused then
    if pause_ok then
      some (⟨true, some now, sig.2.1⟩, [Cmd.pause, Cmd.park])
    else
      some (st, [Cmd.pause])
  else if st.is_paused then
    match st.pause_start_time with
    | none => none
    | some t0 =>
      let time_paused := (now - t0) / 60
      if time_paused ≥ wa then
        if resume_ok then
          some (⟨false, none, none⟩, [Cmd.resume])
        else
          some (st, [Cmd.resume])
      else
        some (st, [])
  else
    some (st, [])

/-- `check_and_manage` with the evaluator signal computed from the schedule
and the wall clock, as at line 260 (the source calls `datetime.now()` twice
in one cycle; both reads are the instant `t` / its second count `now`). -/
def check_and_manage (wb wa : ℚ) (dtek : DTEKState) (t : Time) (now : ℚ)
    (pause_ok resume_ok : Bool) (st : PMState) : Option (PMState × List Cmd) :=
  check_and_manage_with wa (get_next_danger_window wb dtek.outages t)
    now pause_ok resume_ok st

/-- The coupling invariant of the manager state: `self.is_paused` holds
exactly when `self.pause_start_time` is set. -/
def consistent (st : PMState) : Prop :=
  st.is_paused = true ↔ st.pause_start_time ≠ none

instance (st : PMState) : Decidable (consistent st) := by
  unfold consistent; infer_instance

/-- A cycle outcome is good when it did not raise and its final state is
`consistent`. -/
def result_consistent (r : Option (PMState × List Cmd)) : Prop :=
  match r with
  | none => False
  | some (st2, _) => consistent st2

instance (r : Option (PMState × List Cmd)) : Decidable (result_consistent r) := by
  unfold result_consistent
  match r with
  | none => exact inferInstanceAs (Decidable False)
  | some (st2, _) => exact inferInstanceAs (Decidable (consistent st2))

/-! ### Helper lemmas -/

/-- Intervals whose pause point and end are both at or before the current
hour are skipped by the evaluator loop. -/
theorem danger_loop_skip (wb ch : ℚ) (pre l : List (ℚ × ℚ))
    (hpre : ∀ x ∈ pre, x.1 - wb / 60 ≤ ch ∧ x.2 ≤ ch) :
    danger_loop wb ch (pre ++ l) = danger_loop wb ch l := by
  induction pre with
  | nil => rfl
  | cons hd tl ih =>
    obtain ⟨h1, h2⟩ := hpre hd (List.mem_cons_self hd tl)
    obtain ⟨s, e⟩ := hd
    simp only [List.cons_append, danger_loop]
    rw [if_neg (not_lt.mpr h1), if_neg (not_lt.mpr h2)]
    exact ih (fun x hx => hpre x (List.mem_cons_of_mem _ hx))

/-- `parse_slots_go` appends the filtered, rescaled slots to its
accumulator. -/
theorem parse_slots_go_eq (acc : List (ℚ × ℚ)) (slots : List Slot) :
    parse_slots_go acc slots =
      acc ++ (slots.filter (fun s => s.type == some "Definite")).map
        (fun s => (((s.start.getD 0 : ℤ) : ℚ) / 60, ((s.stop.getD 0 : ℤ) : ℚ) / 60)) := by
  induction slots generalizing acc with
  | nil => simp [parse_slots_go]
  | cons hd tl ih =>
    by_cases h : hd.type = some "Definite"
    · simp [parse_slots_go, h, ih, List.filter_cons]
    · simp [parse_slots_go, h, ih, List.filter_cons]

/-- `check_and_manage_with` in the `PAUSED` branch with a set timestamp. -/
theorem cam_paused (wa : ℚ) (sig : Bool × Option String × Option ℚ)
    (now t0 : ℚ) (pause_ok resume_ok : Bool) (st : PMState)
    (hp : st.is_paused = true) (hts : st.pause_start_time = some t0) :
    check_and_manage_with wa sig now pause_ok resume_ok st =
      if (now - t0) / 60 ≥ wa then
        (if resume_ok then some (⟨false, none, none⟩, [Cmd.resume])
         else some (st, [Cmd.resume]))
      else some (st, []) := by
  unfold check_and_manage_with
  rw [hp, hts]
  simp

/-- `check_and_manage_with` in the `PAUSED` branch with a missing
timestamp raises (`none`). -/
theorem cam_paused_none (wa : ℚ) (sig : Bool × Option String × Option ℚ)
    (now : ℚ) (pause_ok resume_ok : Bool) (st : PMState)
    (hp : st.is_paused = true) (hts : st.pause_start_time = none) :
    check_and_manage_with wa sig now pause_ok resume_ok st = none := by
  unfold check_and_manage_with
  rw [hp, hts]
  simp

/-- `check_and_manage_with` in the idle branch with `must_act` set. -/
theorem cam_idle_act (wa : ℚ) (sig : Bool × Option String × Option ℚ)
    (now : ℚ) (pause_ok resume_ok : Bool) (st : PMState)
    (hp : st.is_paused = false) (hsig : sig.1 = true) :
    check_and_manage_with wa sig now pause_ok resume_ok st =
      if pause_ok then some (⟨true, some now, sig.2.1⟩, [Cmd.pause, Cmd.park])
      else some (st, [Cmd.pause]) := by
  unfold check_and_manage_with
  rw [hp, hsig]
  simp

/-- `check_and_manage_with` in the idle branch with `must_act` clear. -/
theorem cam_idle_noact (wa : ℚ) (sig : Bool × Option String × Option ℚ)
    (now : ℚ) (pause_ok resume_ok : Bool) (st : PMState)
    (hp : st.is_paused = false) (hsig : sig.1 = false) :
    check_and_manage_with wa sig now pause_ok resume_ok st = some (st, []) := by
  unfold check_and_manage_with
  rw [hp, hsig]
  simp

/-! ### Claim theorems -/

/-- C1 counterexample: with `wait_before = 5` and today's schedule holding
the single window 16:00-19:00, the evaluator at wall-clock 15:54:30 returns
`minutes_until_pause = 1.0`, not `0.5` as claimed — the source computes
`current_hour = now.hour + now.minute / 60`, ignoring seconds — and at
15:50 it returns `must_act = false` with `minutes` equal to `none`, not
`5.0`. -/
theorem c1_counterexample :
    (get_next_danger_window 5 [("today", [(16, 19)])] ⟨15, 54, 30⟩).2.2 = some 1 ∧
    some (1 : ℚ) ≠ some (1 / 2 : ℚ) ∧
    (get_next_danger_window 5 [("today", [(16, 19)])] ⟨15, 50, 0⟩).2.2 = none := by
  have hsel : ∀ sec : ℕ, ∀ minute : ℕ,
      dict_getD [("today", [((16 : ℚ), (19 : ℚ))])]
        (get_current_period ⟨15, minute, sec⟩) [] = [(16, 19)] := by
    intro sec minute
    simp [dict_getD, get_current_period, List.find?]
  refine ⟨?_, by norm_num, ?_⟩
  · unfold get_next_danger_window
    rw [hsel]
    simp only [danger_loop]
    rw [if_pos (by norm_num [current_hour] :
          current_hour ⟨15, 54, 30⟩ < 16 - (5 : ℚ) / 60)]
    rw [if_pos (by norm_num [current_hour] :
          (16 - (5 : ℚ) / 60 - current_hour ⟨15, 54, 30⟩) * 60 ≤ 1)]
    norm_num [current_hour]
  · unfold get_next_danger_window
    rw [hsel]
    simp only [danger_loop]
    rw [if_pos (by norm_num [current_hour] :
          current_hour ⟨15, 50, 0⟩ < 16 - (5 : ℚ) / 60)]
    rw [if_neg (by norm_num [current_hour] :
          ¬ (16 - (5 : ℚ) / 60 - current_hour ⟨15, 50, 0⟩) * 60 ≤ 1)]

/-- C1 (amended): with `wait_before = 5` and today's schedule holding the
single window 16:00-19:00, evaluating at 15:54:30 yields `must_act = true`
with `minutes_until_pause = 1.0` (seconds are ignored, so the instant
counts as 15:54; the pause point is 15:55), and evaluating at 15:50 yields
`must_act = false` with window and minutes both `none`, the internal
minutes-until-pause at 15:50 being exactly 5.0. -/
theorem c1_amended :
    get_next_danger_window 5 [("today", [(16, 19)])] ⟨15, 54, 30⟩ =
      (true, some (window_name 16 19), some 1) ∧
    current_hour ⟨15, 54, 30⟩ = current_hour ⟨15, 54, 0⟩ ∧
    get_next_danger_window 5 [("today", [(16, 19)])] ⟨15, 50, 0⟩ =
      (false, none, none) ∧
    (16 - (5 : ℚ) / 60 - current_hour ⟨15, 50, 0⟩) * 60 = 5 := by
  have hsel : ∀ sec : ℕ, ∀ minute : ℕ,
      dict_getD [("today", [((16 : ℚ), (19 : ℚ))])]
        (get_current_period ⟨15, minute, sec⟩) [] = [(16, 19)] := by
    intro sec minute
    simp [dict_getD, get_current_period, List.find?]
  refine ⟨?_, by norm_num [current_hour], ?_, by norm_num [current_hour]⟩
  · unfold get_next_danger_window
    rw [hsel]
    simp only [danger_loop]
    rw [if_pos (by norm_num [current_hour] :
          current_hour ⟨15, 54, 30⟩ < 16 - (5 : ℚ) / 60)]
    rw [if_pos (by norm_num [current_hour] :
          (16 - (5 : ℚ) / 60 - current_hour ⟨15, 54, 30⟩) * 60 ≤ 1)]
    norm_num [current_hour]
  · unfold get_next_danger_window
    rw [hsel]
    simp only [danger_loop]
    rw [if_pos (by norm_num [current_hour] :
          current_hour ⟨15, 50, 0⟩ < 16 - (5 : ℚ) / 60)]
    rw [if_neg (by norm_num [current_hour] :
          ¬ (16 - (5 : ℚ) / 60 - current_hour ⟨15, 50, 0⟩) * 60 ≤ 1)]

/-- C2: when every earlier interval is already past and the current hour is
strictly before the pause point of the next interval, the evaluator signals
`must_act = true` exactly when `(pause_point - current_hour) * 60 ≤ 1.0`
and `must_act = false` otherwise — and the result does not depend on any
later interval (`rest` is arbitrary and absent from the right-hand side). -/
theorem c2_imminent_threshold (wb : ℚ) (sched : List (String × List (ℚ × ℚ)))
    (t : Time) (pre rest : List (ℚ × ℚ)) (s e : ℚ)
    (hsched : dict_getD sched (get_current_period t) [] = pre ++ (s, e) :: rest)
    (hpre : ∀ x ∈ pre, x.1 - wb / 60 ≤ current_hour t ∧ x.2 ≤ current_hour t)
    (hbefore : current_hour t < s - wb / 60) :
    get_next_danger_window wb sched t =
      if (s - wb / 60 - current_hour t) * 60 ≤ 1 then
        (true, some (window_name s e), some ((s - wb / 60 - current_hour t) * 60))
      else (false, none, none) := by
  unfold get_next_danger_window
  rw [hsched, danger_loop_skip wb (current_hour t) pre _ hpre]
  simp only [danger_loop]
  rw [if_pos hbefore]

/-- C2 witness: today's window 16:00-19:00 polled at 15:50 — 5 minutes
before the pause point, above the 1-minute threshold, so no action. -/
theorem c2_witness :
    get_next_danger_window 5 [("today", [(16, 19)])] ⟨15, 50, 0⟩ =
      (false, none, none) :=
  (c2_imminent_threshold 5 [("today", [(16, 19)])] ⟨15, 50, 0⟩ [] [] 16 19
    (by simp [dict_getD, get_current_period, List.find?])
    (by simp)
    (by norm_num [current_hour])).trans
    (by rw [if_neg (by norm_num [current_hour])])

/-- C3: when every earlier interval is already past and the current hour is
between the pause point and the window end, the evaluator signals
`must_act = true` with `minutes = (end - current_hour) * 60`. -/
theorem c3_inside_window (wb : ℚ) (sched : List (String × List (ℚ × ℚ)))
    (t : Time) (pre rest : List (ℚ × ℚ)) (s e : ℚ)
    (hsched : dict_getD sched (get_current_period t) [] = pre ++ (s, e) :: rest)
    (hpre : ∀ x ∈ pre, x.1 - wb / 60 ≤ current_hour t ∧ x.2 ≤ current_hour t)
    (hlo : s - wb / 60 ≤ current_hour t)
    (hhi : current_hour t < e) :
    get_next_danger_window wb sched t =
      (true, some (window_name s e), some ((e - current_hour t) * 60)) := by
  unfold get_next_danger_window
  rw [hsched, danger_loop_skip wb (current_hour t) pre _ hpre]
  simp only [danger_loop]
  rw [if_neg (not_lt.mpr hlo), if_pos hhi]

/-- C3 witness: inside the window 16:00-19:00 at 16:30, the earlier window
08:00-10:00 already past; 150 minutes remain until the window end. -/
theorem c3_witness :
    get_next_danger_window 5 [("today", [(8, 10), (16, 19)])] ⟨16, 30, 0⟩ =
      (true, some (window_name 16 19), some 150) :=
  (c3_inside_window 5 [("today", [(8, 10), (16, 19)])] ⟨16, 30, 0⟩
    [(8, 10)] [] 16 19
    (by simp [dict_getD, get_current_period, List.find?])
    (by norm_num [current_hour])
    (by norm_num [current_hour])
    (by norm_num [current_hour])).trans
    (by norm_num [current_hour])

/-- C4: an evaluation cycle never issues a pause command while already
paused, and never issues a resume command while not paused — for every
evaluator signal and every command outcome. -/
theorem c4_no_inconsistent_command (wa : ℚ) (sig : Bool × Option String × Option ℚ)
    (now : ℚ) (pause_ok resume_ok : Bool) (st st' : PMState) (cmds : List Cmd)
    (h : check_and_manage_with wa sig now pause_ok resume_ok st = some (st', cmds)) :
    (st.is_paused = true → Cmd.pause ∉ cmds) ∧
    (st.is_paused = false → Cmd.resume ∉ cmds) := by
  constructor
  · intro hp
    cases hts : st.pause_start_time with
    | none =>
      rw [cam_paused_none wa sig now pause_ok resume_ok st hp hts] at h
      exact absurd h (by simp)
    | some t0 =>
      rw [cam_paused wa sig now t0 pause_ok resume_ok st hp hts] at h
      by_cases hw : (now - t0) / 60 ≥ wa
      · rw [if_pos hw] at h
        cases resume_ok <;>
          · simp only [Bool.false_eq_true, if_false, if_true,
              Option.some.injEq, Prod.mk.injEq] at h
            obtain ⟨-, rfl⟩ := h
            simp
      · rw [if_neg hw] at h
        simp only [Option.some.injEq, Prod.mk.injEq] at h
        obtain ⟨-, rfl⟩ := h
        simp
  · intro hp
    cases hsig : sig.1 with
    | false =>
      rw [cam_idle_noact wa sig now pause_ok resume_ok st hp hsig] at h
      simp only [Option.some.injEq, Prod.mk.injEq] at h
      obtain ⟨-, rfl⟩ := h
      simp
    | true =>
      rw [cam_idle_act wa sig now pause_ok resume_ok st hp hsig] at h
      cases pause_ok <;>
        · simp only [Bool.false_eq_true, if_false, if_true,
            Option.some.injEq, Prod.mk.injEq] at h
          obtain ⟨-, rfl⟩ := h
          simp

/-- C4 witness: a cycle from the paused state (waiting, no commands) and a
cycle from the idle state with a successful pause (pause then park). -/
theorem c4_witness :
    Cmd.pause ∉ ([] : List Cmd) ∧ Cmd.resume ∉ [Cmd.pause, Cmd.park] := by
  constructor
  · exact (c4_no_inconsistent_command 10 (true, some (window_name 16 19), some 1)
      57330 true true ⟨true, some 57300, some (window_name 16 19)⟩
      ⟨true, some 57300, some (window_name 16 19)⟩ []
      (by rw [cam_paused 10 (true, some (window_name 16 19), some 1)
            57330 57300 true true _ rfl rfl]
          norm_num)).1 rfl
  · exact (c4_no_inconsistent_command 10 (true, some (window_name 16 19), some 1)
      57270 true true ⟨false, none, none⟩
      ⟨true, some 57270, some (window_name 16 19)⟩ [Cmd.pause, Cmd.park]
      (by rw [cam_idle_act 10 (true, some (window_name 16 19), some 1)
            57270 true true _ rfl rfl]
          simp)).2 rfl

/-- C5: in the `PAUSED` state a resume command is issued exactly when the
elapsed minutes since `pause_start_time` reach `wait_after`, the boundary
`elapsed = wait_after` included (the source comparison is `>=`). -/
theorem c5_resume_gating (wa : ℚ) (sig : Bool × Option String × Option ℚ)
    (now t0 : ℚ) (pause_ok resume_ok : Bool) (st st' : PMState) (cmds : List Cmd)
    (hp : st.is_paused = true) (hts : st.pause_start_time = some t0)
    (h : check_and_manage_with wa sig now pause_ok resume_ok st = some (st', cmds)) :
    Cmd.resume ∈ cmds ↔ (now - t0) / 60 ≥ wa := by
  rw [cam_paused wa sig now t0 pause_ok resume_ok st hp hts] at h
  by_cases hw : (now - t0) / 60 ≥ wa
  · rw [if_pos hw] at h
    cases resume_ok <;>
      · simp only [Bool.false_eq_true, if_false, if_true,
          Option.some.injEq, Prod.mk.injEq] at h
        obtain ⟨-, rfl⟩ := h
        simpa using hw
  · rw [if_neg hw] at h
    simp only [Option.some.injEq, Prod.mk.injEq] at h
    obtain ⟨-, rfl⟩ := h
    simpa using hw

/-- C5 witness: paused at 15:55:00 (57300 s) with `wait_after = 10`; a poll
at 16:04:59 (57899 s, elapsed 599/60 minutes) issues no resume, a poll at
16:05:00 (57900 s, elapsed exactly 10 minutes) issues one. -/
theorem c5_witness :
    (Cmd.resume ∈ ([] : List Cmd) ↔ ((57899 : ℚ) - 57300) / 60 ≥ 10) ∧
    (Cmd.resume ∈ [Cmd.resume] ↔ ((57900 : ℚ) - 57300) / 60 ≥ 10) := by
  constructor
  · exact c5_resume_gating 10 (false, none, none) 57899 57300 false false
      ⟨true, some 57300, some (window_name 16 19)⟩
      ⟨true, some 57300, some (window_name 16 19)⟩ [] rfl rfl
      (by rw [cam_paused 10 (false, none, none) 57899 57300 false false _ rfl rfl]
          norm_num)
  · exact c5_resume_gating 10 (false, none, none) 57900 57300 false false
      ⟨true, some 57300, some (window_name 16 19)⟩
      ⟨true, some 57300, some (window_name 16 19)⟩ [Cmd.resume] rfl rfl
      (by rw [cam_paused 10 (false, none, none) 57900 57300 false false _ rfl rfl]
          norm_num)

/-- C6: a failed resume at elapsed time `≥ wait_after` leaves the whole
state unchanged (`is_paused`, `pause_start_time` and the window label), so
every later cycle — any signal, any outcomes — issues resume again. -/
theorem c6_retry_without_reset (wa : ℚ) (sig : Bool × Option String × Option ℚ)
    (now t0 : ℚ) (pause_ok : Bool) (st : PMState)
    (hp : st.is_paused = true) (hts : st.pause_start_time = some t0)
    (helapsed : (now - t0) / 60 ≥ wa) :
    check_and_manage_with wa sig now pause_ok false st = some (st, [Cmd.resume]) ∧
    ∀ sig2 : Bool × Option String × Option ℚ, ∀ now2 : ℚ,
      ∀ pause_ok2 resume_ok2 : Bool, now ≤ now2 →
      ∃ st2 : PMState,
        check_and_manage_with wa sig2 now2 pause_ok2 resume_ok2 st =
          some (st2, [Cmd.resume]) := by
  constructor
  · rw [cam_paused wa sig now t0 pause_ok false st hp hts, if_pos helapsed]
    simp
  · intro sig2 now2 pause_ok2 resume_ok2 hle
    have h2 : (now2 - t0) / 60 ≥ wa := by
      refine le_trans helapsed ?_
      gcongr
    rw [cam_paused wa sig2 now2 t0 pause_ok2 resume_ok2 st hp hts, if_pos h2]
    cases resume_ok2
    · exact ⟨st, by simp⟩
    · exact ⟨⟨false, none, none⟩, by simp⟩

/-- C6 witness: resume fails at elapsed exactly 10 minutes; the cycle
returns the unchanged state with a single resume command. -/
theorem c6_witness :
    check_and_manage_with 10 (false, none, none) 57900 false false
      ⟨true, some 57300, some (window_name 16 19)⟩ =
      some (⟨true, some 57300, some (window_name 16 19)⟩, [Cmd.resume]) :=
  (c6_retry_without_reset 10 (false, none, none) 57900 57300 false
    ⟨true, some 57300, some (window_name 16 19)⟩ rfl rfl (by norm_num)).1

/-- C7: whenever a fetch fails — the request/parse raised, or the
configured group is absent from the response — the stored manager state
(in particular the whole outage schedule) is unchanged and the fetch
reports `False`. -/
theorem c7_stale_on_failure (st : DTEKState) (now : ℚ)
    (resp : Option (List (String × GroupData)))
    (h : resp = none ∨ ∃ data, resp = some data ∧ dict_get? data st.group = none) :
    (fetch_outages st now resp).1 = st ∧ (fetch_outages st now resp).2 = false := by
  rcases h with rfl | ⟨data, rfl, hg⟩
  · exact ⟨rfl, rfl⟩
  · simp only [fetch_outages]
    rw [hg]
    exact ⟨rfl, rfl⟩

/-- C7 witness: a response that lacks group `"1.1"` leaves the stored
schedule intact and reports failure; so does a raised request. -/
theorem c7_witness :
    (fetch_outages ⟨"1.1", [("today", [(16, 19)])], none⟩ 0
        (some [("2.1", ⟨none, none⟩)])).1 =
      ⟨"1.1", [("today", [(16, 19)])], none⟩ ∧
    (fetch_outages ⟨"1.1", [("today", [(16, 19)])], none⟩ 0
        (some [("2.1", ⟨none, none⟩)])).2 = false :=
  c7_stale_on_failure ⟨"1.1", [("today", [(16, 19)])], none⟩ 0
    (some [("2.1", ⟨none, none⟩)])
    (Or.inr ⟨[("2.1", ⟨none, none⟩)], rfl, by simp [dict_get?, List.find?]⟩)

/-- C8 counterexample: the parser performs no validation — the raw slot
`\x7btype: "Definite", start: 600, end: 300\x7d` is accepted and parses to the
interval `(10, 5)`, which violates `start_hour < end_hour`. -/
theorem c8_counterexample :
    ¬ (∀ p ∈ parse_slots [⟨some "Definite", some 600, some 300⟩],
        0 ≤ p.1 ∧ p.1 < p.2 ∧ p.2 < 24) := by
  intro hall
  have hmem : ((10 : ℚ), (5 : ℚ)) ∈
      parse_slots [⟨some "Definite", some 600, some 300⟩] := by
    unfold parse_slots
    rw [parse_slots_go_eq]
    norm_num [List.filter_cons, Prod.ext_iff]
  have := (hall _ hmem).2.1
  norm_num at this

/-- C8 (amended): for every raw slot list whose `Definite` slots carry
minutes satisfying `0 ≤ start`, `start < end` and `end < 1440`, every
parsed interval satisfies `0 ≤ start_hour`, `start_hour < end_hour` and
`end_hour < 24`.  (The parser itself validates nothing; the bounds hold
only when the feed's minutes are in range.) -/
theorem c8_parse_invariant (slots : List Slot)
    (hvalid : ∀ s ∈ slots, s.type = some "Definite" →
      0 ≤ s.start.getD 0 ∧ s.start.getD 0 < s.stop.getD 0 ∧ s.stop.getD 0 < 1440) :
    ∀ p ∈ parse_slots slots, 0 ≤ p.1 ∧ p.1 < p.2 ∧ p.2 < 24 := by
  intro p hp
  unfold parse_slots at hp
  rw [parse_slots_go_eq] at hp
  simp only [List.nil_append, List.mem_map, List.mem_filter] at hp
  obtain ⟨s, ⟨hs_mem, hs_type⟩, rfl⟩ := hp
  have htype : s.type = some "Definite" := by simpa using hs_type
  obtain ⟨h0, h1, h2⟩ := hvalid s hs_mem htype
  refine ⟨?_, ?_, ?_⟩
  · apply div_nonneg _ (by norm_num)
    exact_mod_cast h0
  · rw [div_lt_div_iff₀ (by norm_num) (by norm_num)]
    have hcast : ((s.start.getD 0 : ℤ) : ℚ) < ((s.stop.getD 0 : ℤ) : ℚ) := by
      exact_mod_cast h1
    exact mul_lt_mul_of_pos_right hcast (by norm_num)
  · rw [div_lt_iff₀ (by norm_num : (0 : ℚ) < 60)]
    exact_mod_cast lt_of_lt_of_le h2 (by norm_num)

/-- C8 witness: the in-range slot `\x7btype: "Definite", start: 960,
end: 1140\x7d` parses to `(16, 19)`, which satisfies the bounds. -/
theorem c8_witness : (0 : ℚ) ≤ 16 ∧ (16 : ℚ) < 19 ∧ (19 : ℚ) < 24 :=
  c8_parse_invariant [⟨some "Definite", some 960, some 1140⟩]
    (by intro s hs
        simp only [List.mem_singleton] at hs
        subst hs
        intro _
        norm_num)
    ((16 : ℚ), (19 : ℚ))
    (by unfold parse_slots
        rw [parse_slots_go_eq]
        norm_num [List.filter_cons, Prod.ext_iff])

/-- C9: slot parsing retains exactly the slots whose `type` equals
`"Definite"`, maps each to `(start/60, end/60)` in fractional hours, and
preserves the input order. -/
theorem c9_parse_filter_map (slots : List Slot) :
    parse_slots slots =
      (slots.filter (fun s => s.type == some "Definite")).map
        (fun s => (((s.start.getD 0 : ℤ) : ℚ) / 60, ((s.stop.getD 0 : ℤ) : ℚ) / 60)) := by
  unfold parse_slots
  rw [parse_slots_go_eq]
  simp

/-- C10: the coupling invariant `is_paused ↔ pause_start_time ≠ none` is
preserved by every evaluation cycle, for every signal and every command
outcome, and such a cycle never hits the `None`-timestamp subtraction. -/
theorem c10_invariant_preserved (wa : ℚ) (sig : Bool × Option String × Option ℚ)
    (now : ℚ) (pause_ok resume_ok : Bool) (st : PMState)
    (hinv : consistent st) :
    result_consistent (check_and_manage_with wa sig now pause_ok resume_ok st) := by
  cases hp : st.is_paused with
  | false =>
    cases hsig : sig.1 with
    | false =>
      rw [cam_idle_noact wa sig now pause_ok resume_ok st hp hsig]
      exact hinv
    | true =>
      rw [cam_idle_act wa sig now pause_ok resume_ok st hp hsig]
      cases pause_ok
      · exact hinv
      · simp [result_consistent, consistent]
  | true =>
    cases hts : st.pause_start_time with
    | none => exact absurd hts (hinv.mp hp)
    | some t0 =>
      rw [cam_paused wa sig now t0 pause_ok resume_ok st hp hts]
      by_cases hw : (now - t0) / 60 ≥ wa
      · rw [if_pos hw]
        cases resume_ok
        · exact hinv
        · simp [result_consistent, consistent]
      · rw [if_neg hw]
        exact hinv

/-- C10 witness: a successful pause from a consistent idle state ends in a
consistent state. -/
theorem c10_witness :
    result_consistent (check_and_manage_with 10
      (true, some (window_name 16 19), some 1) 57270 true true
      ⟨false, none, none⟩) :=
  c10_invariant_preserved 10 (true, some (window_name 16 19), some 1)
    57270 true true ⟨false, none, none⟩ (by simp [consistent])
